import Mathlib

/-!
Verification of the trend-prediction and anomaly-detection engine of the
`data_analyst` chat-group analytics plugin (`src/predictor.py`,
`PredictorService`).

The engine is embedded shallowly: the Python floats are modelled as exact
rationals (`ℚ`), so every arithmetic identity of the source algorithms is
stated exactly, without floating-point rounding.  Two places need more care:

* `np.std` takes a real square root, so the anomaly detector's standard
  deviation lives in `ℝ` (`Real.sqrt` of a rational variance); the anomaly
  comparison itself is made decidable through an equivalent rational test.
* the seasonal predictor's trend factor divides by `mean(data[:7])` without
  any guard; since IEEE-754 division by zero silently produces `inf`/`nan`
  rather than raising, that one computation is additionally modelled on a
  type `PyFloat` of floats-with-special-values to settle what the code
  really returns there (rational division would silently read `x / 0 = 0`
  and hide the behaviour).

The Gaussian jitter of `_trend_analysis_prediction`
(`np.random.normal(0, np.std(data) * 0.1)`) is modelled as an explicit
`noise : ℕ → ℚ` parameter giving the realisation of the noise at each
forecast step; all theorems about that predictor hold for every such
realisation.

Database access (`get_activity_analysis` and the two inline SQL queries) is
I/O outside the engine; each service entry point is therefore parametrised
by the daily series the query returned, exactly as the spec's external
interface `GetDailyCounts` describes.
-/

/-- Arithmetic mean of a list of rationals, `np.mean`.  (On the empty list
this is `0 / 0 = 0`; the source only ever takes means of series it has
checked to be non-empty.) -/
def mean (l : List ℚ) : ℚ := l.sum / (l.length : ℚ)

/-- Sum of the x-coordinates `0, 1, …, n-1` used by the least-squares fit. -/
def xsOf (n : ℕ) : List ℚ := (List.range n).map (fun i => (i : ℚ))

/-- Slope of the ordinary-least-squares line fitted to `(i, data[i])` for
`i = 0 … n-1`; this is what `sklearn.linear_model.LinearRegression.fit`
computes on `X = [[0], [1], …, [n-1]]`, `y = data`. -/
def olsSlope (data : List ℚ) : ℚ :=
  let n : ℚ := (data.length : ℚ)
  let sx := (xsOf data.length).sum
  let sy := data.sum
  let sxy := (((xsOf data.length).zip data).map (fun p => p.1 * p.2)).sum
  let sxx := ((xsOf data.length).map (fun x => x * x)).sum
  (n * sxy - sx * sy) / (n * sxx - sx * sx)

/-- Intercept of the same ordinary-least-squares line
(`ȳ − slope · x̄`, as computed by `LinearRegression`). -/
def olsIntercept (data : List ℚ) : ℚ :=
  (data.sum - olsSlope data * (xsOf data.length).sum) / (data.length : ℚ)

/-- Embeds `PredictorService._linear_prediction(data, days)`:
fit a least-squares line over the history, project it over
`x = n … n+days-1`, clamp every projected value with
`np.maximum(predictions, 0)`.  Edge case from the source: with fewer than
two points it returns `[data[0]] * days` (`[0] * days` for an empty
series) — note the clamp is NOT applied on that path. -/
def linearPrediction (data : List ℚ) (days : ℕ) : List ℚ :=
  if data.length < 2 then
    match data with
    | [] => List.replicate days 0
    | d :: _ => List.replicate days d
  else
    (List.range days).map (fun k =>
      max (olsSlope data * ((data.length + k : ℕ) : ℚ) + olsIntercept data) 0)

/-- Embeds `PredictorService._trend_analysis_prediction(data, days)`.
`noise k` is the realisation of the Gaussian jitter added at forecast step
`k` (the source draws `np.random.normal(0, np.std(data) * 0.1)`); every
theorem below holds for an arbitrary realisation. -/
def trendAnalysisPrediction (data : List ℚ) (days : ℕ) (noise : ℕ → ℚ) : List ℚ :=
  if data.length < 3 then linearPrediction data days
  else
    let recentWindow := min 7 (data.length / 2)
    let recentAvg := mean (data.drop (data.length - recentWindow))
    let earlyAvg := mean (data.take recentWindow)
    let trendSlope := (recentAvg - earlyAvg) / (recentWindow : ℚ)
    let lastValue := (data.getLast?).getD 0
    (List.range days).map (fun k =>
      max 0 (lastValue + trendSlope * ((k + 1 : ℕ) : ℚ) + noise k))

/-- The values `data[i], data[i+7], data[i+14], …` averaged by the seasonal
predictor for weekday position `i` (`[data[j] for j in range(i, len(data), 7)]`). -/
def weekValues (data : List ℚ) (i : ℕ) : List ℚ :=
  (List.range ((data.length - i + 6) / 7)).map (fun t => data.getD (i + 7 * t) 0)

/-- Embeds `PredictorService._seasonal_prediction(data, days)` with rational
division.  CAVEAT: on the line
`trend_factor = 1 + (np.mean(data[-7:]) - np.mean(data[:7])) / np.mean(data[:7])`
the source divides by `np.mean(data[:7])` without a zero guard; rational
division reads `x / 0 = 0` where IEEE-754 produces `inf`/`nan`, so this
definition is faithful only when `mean (data.take 7) ≠ 0`.  The zero case is
settled separately with `seasonalPredictionFloat` below. -/
def seasonalPrediction (data : List ℚ) (days : ℕ) : List ℚ :=
  if data.length < 7 then linearPrediction data days
  else
    let weekPattern := (List.range 7).map (fun i => mean (weekValues data i))
    let trendFactor :=
      1 + (mean (data.drop (data.length - 7)) - mean (data.take 7)) / mean (data.take 7)
    (List.range days).map (fun k =>
      max 0 (weekPattern.getD (k % weekPattern.length) 0 * trendFactor))

/-- The fixed ensemble weights `[0.4, 0.3, 0.3]` of `_combine_predictions`
(linear, trend, seasonal). -/
def ensembleWeights : List ℚ := [0.4, 0.3, 0.3]

/-- Embeds `PredictorService._combine_predictions(prediction_lists)`:
drop empty sequences (Python list truthiness), then for each index
`i < len(valid[0])` average the values of the sequences that reach index
`i`, weighting the `j`-th REMAINING sequence by `weights[j]` (falling back
to `1/len(valid)` past the third), and dividing by the total weight present
(`0` if none). -/
def combinePredictions (predictionLists : List (List ℚ)) : List ℚ :=
  let validPredictions := predictionLists.filter (fun p => !p.isEmpty)
  match validPredictions with
  | [] => []
  | first :: rest =>
    let valid := first :: rest
    let weightAt : ℕ → ℚ := fun j => ensembleWeights.getD j (1 / (valid.length : ℚ))
    (List.range first.length).map (fun i =>
      let present := valid.enum.filter (fun jp => decide (i < jp.2.length))
      let totalWeight := (present.map (fun jp => weightAt jp.1)).sum
      let weightedSum := (present.map (fun jp => jp.2.getD i 0 * weightAt jp.1)).sum
      if 0 < totalWeight then weightedSum / totalWeight else 0)

/-- Embeds `sklearn.metrics.r2_score(y_true, y_pred)` (the library call made
by `_calculate_confidence`), including sklearn's conventions for a constant
target: with residual sum `num` and total sum of squares `den`, the score is
`1` when `num = 0`, `0` when `num ≠ 0` but `den = 0`, and `1 − num / den`
otherwise. -/
def r2Score (yTrue yPred : List ℚ) : ℚ :=
  let num := ((yTrue.zip yPred).map (fun p => (p.1 - p.2) ^ 2)).sum
  let den := (yTrue.map (fun y => (y - mean yTrue) ^ 2)).sum
  if num = 0 then 1 else if den = 0 then 0 else 1 - num / den

/-- Embeds `PredictorService._calculate_confidence(historical, fitted)`:
neutral `0.5` on length mismatch or fewer than two points, otherwise
`max(0, min(1, (r2 + (1 - mape)) / 2))` with
`mape = mean(|historical - fitted| / max(historical, 1))`. -/
def calculateConfidence (historical fitted : List ℚ) : ℚ :=
  if historical.length ≠ fitted.length ∨ historical.length < 2 then 0.5
  else
    let r2 := r2Score historical fitted
    let mape := mean (((historical.zip fitted)).map (fun p => |p.1 - p.2| / max p.1 1))
    max 0 (min 1 ((r2 + (1 - mape)) / 2))

/-- Embeds `PredictorService._analyze_trend_direction(historical, predictions)`:
compare the mean of the last seven historical values (all of them when the
history is shorter) with the mean of the forecast and classify the relative
change against the `±0.1` thresholds. -/
def analyzeTrendDirection (historical predictions : List ℚ) : String :=
  if historical.isEmpty ∨ predictions.isEmpty then "未知"
  else
    let recentAvg :=
      if 7 ≤ historical.length then mean (historical.drop (historical.length - 7))
      else mean historical
    let predictedAvg := mean predictions
    let changeRate := if 0 < recentAvg then (predictedAvg - recentAvg) / recentAvg else 0
    if 0.1 < changeRate then "上升"
    else if changeRate < -0.1 then "下降"
    else "稳定"

/-- The structured outcome assembled by the service
(`models.PredictionResult`).  The narrative `description` string is
presentation glue and is not modelled. -/
structure PredictionResult where
  predictions : List ℚ
  confidence : ℚ
  trend_direction : String
  change_percent : ℚ
deriving DecidableEq, Repr

/-- Embeds the computation of `PredictorService._predict_activity` after the
database fetch: `counts` is the per-day message-count column of the rows the
query returned (the `row[1]` of `activity_data.daily_data`).  A missing or
empty fetch result and a series shorter than `min_data_points = 7` both
yield `None`. -/
def predictActivityCore (counts : List ℚ) (days : ℕ) (noise : ℕ → ℚ) :
    Option PredictionResult :=
  if counts.isEmpty then none
  else if counts.length < 7 then none
  else
    let linearPred := linearPrediction counts days
    let trendPred := trendAnalysisPrediction counts days noise
    let seasonalPred := seasonalPrediction counts days
    let predictions := combinePredictions [linearPred, trendPred, seasonalPred]
    let confidence := calculateConfidence counts (predictions.take counts.length)
    let trendDirection := analyzeTrendDirection counts predictions
    let currentAvg :=
      if 7 ≤ counts.length then mean (counts.drop (counts.length - 7)) else mean counts
    let futureAvg := mean predictions
    let changePercent :=
      if 0 < currentAvg then (futureAvg - currentAvg) / currentAvg * 100 else 0
    some ⟨predictions, confidence, trendDirection, changePercent⟩

/-- Embeds the computation of `PredictorService._predict_member_growth` after
its SQL query: `userCounts` is the per-day distinct-active-user column.
Only the linear predictor runs; the trend label uses the `±5` thresholds on
`change_percent` that appear inline in that method. -/
def predictMemberGrowthCore (userCounts : List ℚ) (days : ℕ) :
    Option PredictionResult :=
  if userCounts.length < 7 then none
  else
    let predictions := linearPrediction userCounts days
    let confidence := calculateConfidence userCounts (predictions.take userCounts.length)
    let currentAvg :=
      if 7 ≤ userCounts.length then mean (userCounts.drop (userCounts.length - 7))
      else mean userCounts
    let futureAvg := mean predictions
    let changePercent :=
      if 0 < currentAvg then (futureAvg - currentAvg) / currentAvg * 100 else 0
    let trendDirection :=
      if 5 < changePercent then "增长" else if changePercent < -5 then "下降" else "稳定"
    some ⟨predictions, confidence, trendDirection, changePercent⟩

/-- Embeds the computation of `PredictorService._predict_topic_trends` after
its SQL query: `topicCounts` is the per-day distinct-keyword column.  Only
the seasonal predictor runs; the trend label uses the `±10` thresholds on
`change_percent` with topic-specific wording. -/
def predictTopicTrendsCore (topicCounts : List ℚ) (days : ℕ) :
    Option PredictionResult :=
  if topicCounts.length < 7 then none
  else
    let predictions := seasonalPrediction topicCounts days
    let confidence := calculateConfidence topicCounts (predictions.take topicCounts.length)
    let currentAvg :=
      if 7 ≤ topicCounts.length then mean (topicCounts.drop (topicCounts.length - 7))
      else mean topicCounts
    let futureAvg := mean predictions
    let changePercent :=
      if 0 < currentAvg then (futureAvg - currentAvg) / currentAvg * 100 else 0
    let trendDirection :=
      if 10 < changePercent then "话题多样化增加"
      else if changePercent < -10 then "话题集中化趋势"
      else "话题稳定发展"
    some ⟨predictions, confidence, trendDirection, changePercent⟩

/-- Embeds `PredictorService.predict(group_id, target, days)`.  The three
`…Data` arguments are the `(date, count)` rows that the respective database
query would return for this group (the fetch itself is I/O outside the
engine); `days` is the Python `int` horizon, hence `ℤ`.  The source checks
`days <= 0 or days > self.max_prediction_days` (30) first, then dispatches
on the target string, returning `None` for any other target.  Every branch
of the source is wrapped in `try/except … return None`, which the totality
of this definition reflects: no exception reaches the caller. -/
def predict (activityData membersData topicsData : List (String × ℚ))
    (noise : ℕ → ℚ) (target : String) (days : ℤ) : Option PredictionResult :=
  if days ≤ 0 ∨ 30 < days then none
  else if target = "activity" then
    predictActivityCore (activityData.map Prod.snd) days.toNat noise
  else if target = "members" then
    predictMemberGrowthCore (membersData.map Prod.snd) days.toNat
  else if target = "topics" then
    predictTopicTrendsCore (topicsData.map Prod.snd) days.toNat
  else none

/-- IEEE-754 double values as produced by the numpy expressions of the
seasonal predictor, with rounding abstracted away: a float is either an
exact (rational) finite value, one of the two infinities, or `nan`.  Only
the special-value behaviour matters here: numpy float division by zero does
not raise, it produces `±inf` (or `nan` for `0/0`) with a warning. -/
inductive PyFloat where
  | finite : ℚ → PyFloat
  | posInf : PyFloat
  | negInf : PyFloat
  | nan : PyFloat
deriving DecidableEq, Repr

/-- IEEE-754 addition on `PyFloat` (rounding abstracted). -/
def pyAdd : PyFloat → PyFloat → PyFloat
  | .nan, _ => .nan
  | _, .nan => .nan
  | .finite a, .finite b => .finite (a + b)
  | .finite _, .posInf => .posInf
  | .finite _, .negInf => .negInf
  | .posInf, .finite _ => .posInf
  | .negInf, .finite _ => .negInf
  | .posInf, .posInf => .posInf
  | .negInf, .negInf => .negInf
  | .posInf, .negInf => .nan
  | .negInf, .posInf => .nan

/-- IEEE-754 multiplication on `PyFloat` (rounding abstracted). -/
def pyMul : PyFloat → PyFloat → PyFloat
  | .nan, _ => .nan
  | _, .nan => .nan
  | .finite a, .finite b => .finite (a * b)
  | .finite a, .posInf => if 0 < a then .posInf else if a < 0 then .negInf else .nan
  | .posInf, .finite a => if 0 < a then .posInf else if a < 0 then .negInf else .nan
  | .finite a, .negInf => if 0 < a then .negInf else if a < 0 then .posInf else .nan
  | .negInf, .finite a => if 0 < a then .negInf else if a < 0 then .posInf else .nan
  | .posInf, .posInf => .posInf
  | .negInf, .negInf => .posInf
  | .posInf, .negInf => .negInf
  | .negInf, .posInf => .negInf

/-- IEEE-754 division on `PyFloat` (rounding and the sign of zero
abstracted): dividing a finite value by zero yields `±inf` by the sign of
the numerator and `nan` for `0 / 0` — it does not raise. -/
def pyDiv : PyFloat → PyFloat → PyFloat
  | .nan, _ => .nan
  | _, .nan => .nan
  | .finite a, .finite b =>
      if b ≠ 0 then .finite (a / b)
      else if 0 < a then .posInf else if a < 0 then .negInf else .nan
  | .finite _, .posInf => .finite 0
  | .finite _, .negInf => .finite 0
  | .posInf, .finite b => if 0 ≤ b then .posInf else .negInf
  | .negInf, .finite b => if 0 ≤ b then .negInf else .posInf
  | .posInf, .posInf => .nan
  | .posInf, .negInf => .nan
  | .negInf, .posInf => .nan
  | .negInf, .negInf => .nan

/-- Python `max(0, x)` on a float `x`: `max` keeps `0` unless `x > 0`
compares true, so `max(0, inf) = inf` but `max(0, nan) = 0` and
`max(0, -inf) = 0`. -/
def pyMax0 : PyFloat → PyFloat
  | .finite a => .finite (max 0 a)
  | .posInf => .posInf
  | .negInf => .finite 0
  | .nan => .finite 0

/-- Embeds `PredictorService._seasonal_prediction(data, days)` once more,
now with the trend-factor line
`trend_factor = 1 + (np.mean(data[-7:]) - np.mean(data[:7])) / np.mean(data[:7])`
computed in float semantics (`PyFloat`), which is what the source actually
executes: there is no guard on the divisor `np.mean(data[:7])`.  All
quantities other than the trend factor and the final products stay exact
rationals (the week-pattern means divide by counts ≥ 1). -/
def seasonalPredictionFloat (data : List ℚ) (days : ℕ) : List PyFloat :=
  if data.length < 7 then (linearPrediction data days).map PyFloat.finite
  else
    let weekPattern := (List.range 7).map (fun i => mean (weekValues data i))
    let trendFactor :=
      pyAdd (.finite 1)
        (pyDiv (.finite (mean (data.drop (data.length - 7)) - mean (data.take 7)))
               (.finite (mean (data.take 7))))
    (List.range days).map (fun k =>
      pyMax0 (pyMul (.finite (weekPattern.getD (k % weekPattern.length) 0)) trendFactor))

/-- One anomaly row built by `PredictorService.detect_anomalies`. -/
structure AnomalyRecord where
  date : String
  value : ℚ
  deviation : ℚ
  kind : String
deriving DecidableEq, Repr

/-- The report dictionary returned by `PredictorService.detect_anomalies`.
`std_value` is `np.std(counts)`, a real square root, hence `ℝ`. -/
structure AnomalyReport where
  total_anomalies : ℕ
  anomalies : List AnomalyRecord
  mean_value : ℚ
  std_value : ℝ
  detection_threshold : ℝ

/-- The anomaly condition of `detect_anomalies`:
`abs(count - mean_val) > threshold` where `threshold = 2 * np.std(counts)`
and `np.std` is the population standard deviation
`sqrt(mean((x - mean)^2))`; `varVal` is that variance. -/
def anomalyExceeds (meanVal varVal v : ℚ) : Prop :=
  2 * Real.sqrt (varVal : ℝ) < |((v : ℝ) - (meanVal : ℝ))|

/-- The anomaly comparison `2 * std < |v - mean|` is equivalent to a purely
rational test (squaring both sides), which makes it decidable. -/
def anomalyExceedsIff (meanVal varVal v : ℚ) :
    (if varVal ≤ 0 then v ≠ meanVal else 4 * varVal < (v - meanVal) ^ 2) ↔
      anomalyExceeds meanVal varVal v := by
  unfold anomalyExceeds
  by_cases hw : varVal ≤ 0
  · have hs : Real.sqrt (varVal : ℝ) = 0 :=
      Real.sqrt_eq_zero'.mpr (by exact_mod_cast hw)
    rw [if_pos hw, hs, mul_zero, abs_pos, sub_ne_zero]
    exact ⟨fun h h2 => h (by exact_mod_cast h2),
           fun h h2 => h (by exact_mod_cast h2)⟩
  · push_neg at hw
    rw [if_neg (not_le.mpr hw)]
    have h4v : 2 * Real.sqrt (varVal : ℝ) = Real.sqrt (4 * (varVal : ℝ)) := by
      rw [show (4 : ℝ) * (varVal : ℝ) = 2 ^ 2 * (varVal : ℝ) by ring,
        Real.sqrt_mul (by positivity : (0 : ℝ) ≤ 2 ^ 2),
        Real.sqrt_sq (by norm_num : (0 : ℝ) ≤ 2)]
    by_cases hv : v = meanVal
    · subst hv
      simp only [sub_self, abs_zero]
      constructor
      · intro h; exact absurd h (by push_neg; positivity)
      · intro h
        exact absurd h (not_lt.mpr (by positivity))
    · have hx : (0 : ℝ) < |((v : ℝ) - (meanVal : ℝ))| := by
        rw [abs_pos, sub_ne_zero]
        exact fun h2 => hv (by exact_mod_cast h2)
      rw [h4v, Real.sqrt_lt' hx, sq_abs]
      constructor
      · intro h; exact_mod_cast h
      · intro h; exact_mod_cast h

instance anomalyExceeds.instDecidable (meanVal varVal v : ℚ) :
    Decidable (anomalyExceeds meanVal varVal v) :=
  decidable_of_iff _ (anomalyExceedsIff meanVal varVal v)

/-- The anomaly rows of `detect_anomalies`: every day whose count deviates
from the series mean by strictly more than twice the (population) standard
deviation, in series order, with `deviation = abs(count - mean)` and
`kind = 'high'` when the count is above the mean, `'low'` otherwise. -/
def anomaliesOf (dailyData : List (String × ℚ)) : List AnomalyRecord :=
  let counts := dailyData.map Prod.snd
  let meanVal := mean counts
  let varVal := mean (counts.map (fun c => (c - meanVal) ^ 2))
  (dailyData.filter (fun row => decide (anomalyExceeds meanVal varVal row.2))).map
    (fun row =>
      ⟨row.1, row.2, |row.2 - meanVal|, if meanVal < row.2 then "high" else "low"⟩)

/-- Embeds `PredictorService.detect_anomalies` after the database fetch:
`dailyData` is the `(date, count)` rows of the activity query.  A missing or
empty fetch yields `None`; otherwise a report is always produced, whatever
the series length. -/
noncomputable def detectAnomalies (dailyData : List (String × ℚ)) :
    Option AnomalyReport :=
  if dailyData.isEmpty then none
  else
    let counts := dailyData.map Prod.snd
    let meanVal := mean counts
    let varVal := mean (counts.map (fun c => (c - meanVal) ^ 2))
    some { total_anomalies := (anomaliesOf dailyData).length
           anomalies := anomaliesOf dailyData
           mean_value := meanVal
           std_value := Real.sqrt (varVal : ℝ)
           detection_threshold := 2 * Real.sqrt (varVal : ℝ) }

/-- Modelled from the spec: the "fitted" sequence that §4.6 / §9 say the
confidence scorer must receive — "the model's retrospective fit over the
same span, produced by re-running the chosen predictor over `y[0..n-1]`
rather than future values".  For the linear predictor this is the fitted
value of the least-squares line at each historical index.  No function in
`src/predictor.py` computes this; it exists here to compare the spec's
prescription with what the code actually passes. -/
def linearInSampleFit (data : List ℚ) : List ℚ :=
  (List.range data.length).map (fun k =>
    olsSlope data * (k : ℚ) + olsIntercept data)

theorem linearPrediction_length (data : List ℚ) (days : ℕ) :
    (linearPrediction data days).length = days := by
  unfold linearPrediction
  split
  · cases data <;> simp
  · simp

theorem trendAnalysisPrediction_length (data : List ℚ) (days : ℕ) (noise : ℕ → ℚ) :
    (trendAnalysisPrediction data days noise).length = days := by
  unfold trendAnalysisPrediction
  split
  · exact linearPrediction_length data days
  · simp

theorem seasonalPrediction_length (data : List ℚ) (days : ℕ) :
    (seasonalPrediction data days).length = days := by
  unfold seasonalPrediction
  split
  · exact linearPrediction_length data days
  · simp

theorem combinePredictions_cons_length (a : List ℚ) (ps : List (List ℚ)) (ha : a ≠ []) :
    (combinePredictions (a :: ps)).length = a.length := by
  unfold combinePredictions
  simp only [List.filter_cons, List.isEmpty_eq_false.mpr ha, Bool.not_false, if_pos]
  simp

theorem calculateConfidence_of_length_ne (y f : List ℚ) (h : y.length ≠ f.length) :
    calculateConfidence y f = 0.5 := by
  unfold calculateConfidence
  rw [if_pos (Or.inl h)]

theorem snd_mem_of_mem_enumFrom {α : Type} {l : List α} {n : ℕ} {p : ℕ × α}
    (h : p ∈ l.enumFrom n) : p.2 ∈ l := by
  induction l generalizing n with
  | nil => simp [List.enumFrom] at h
  | cons a t ih =>
    simp only [List.enumFrom, List.mem_cons] at h
    rcases h with h | h
    · rw [h]; exact List.mem_cons_self a t
    · exact List.mem_cons_of_mem a (ih h)

theorem snd_mem_of_mem_enum {α : Type} {l : List α} {p : ℕ × α}
    (h : p ∈ l.enum) : p.2 ∈ l := snd_mem_of_mem_enumFrom h

theorem ensembleWeights_getD_nonneg (j : ℕ) (d : ℚ) (hd : 0 ≤ d) :
    0 ≤ ensembleWeights.getD j d := by
  rcases j with _ | _ | _ | j <;> simp [ensembleWeights, List.getD] <;> norm_num
  exact hd

theorem combinePredictions_nonneg (lists : List (List ℚ))
    (hall : ∀ pl ∈ lists, ∀ x ∈ pl, 0 ≤ x) :
    ∀ y ∈ combinePredictions lists, 0 ≤ y := by
  intro y hy
  unfold combinePredictions at hy
  set valid := lists.filter (fun p => !p.isEmpty) with hvalid
  rcases hval : valid with _ | ⟨first, rest⟩
  · rw [hval] at hy; simp at hy
  · rw [hval] at hy
    simp only [List.mem_map, List.mem_range] at hy
    obtain ⟨i, hi, rfl⟩ := hy
    set vs := first :: rest with hvs
    split
    case isTrue htw =>
      apply div_nonneg _ (le_of_lt htw)
      apply List.sum_nonneg
      intro x hx
      simp only [List.mem_map] at hx
      obtain ⟨jp, hjp, rfl⟩ := hx
      have hmem := List.mem_of_mem_filter hjp
      have hv : jp.2 ∈ vs := snd_mem_of_mem_enum hmem
      have hv2 : jp.2 ∈ lists.filter (fun p => !p.isEmpty) := by
        rw [← hvalid, hval, hvs]; exact hv
      have hlists : jp.2 ∈ lists := List.mem_of_mem_filter hv2
      have hcond := List.of_mem_filter hjp
      have hilt : i < jp.2.length := of_decide_eq_true hcond
      have hval2 : 0 ≤ jp.2.getD i 0 := by
        rw [List.getD_eq_getElem?_getD, List.getElem?_eq_getElem hilt]
        exact hall jp.2 hlists _ (List.getElem_mem hilt)
      apply mul_nonneg hval2
      apply ensembleWeights_getD_nonneg
      positivity
    case isFalse => exact le_refl 0

theorem linearPrediction_nonneg (data : List ℚ) (days : ℕ)
    (hdata : ∀ x ∈ data, 0 ≤ x) :
    ∀ y ∈ linearPrediction data days, 0 ≤ y := by
  intro y hy
  unfold linearPrediction at hy
  split at hy
  · rcases data with _ | ⟨d, t⟩
    · simp at hy
      rw [hy.2]
    · have hrep : y ∈ List.replicate days d := hy
      rw [List.eq_of_mem_replicate hrep]
      exact hdata d (List.mem_cons_self d t)
  · simp only [List.mem_map, List.mem_range] at hy
    obtain ⟨k, _, rfl⟩ := hy
    exact le_max_right _ 0

theorem trendAnalysisPrediction_nonneg (data : List ℚ) (days : ℕ) (noise : ℕ → ℚ)
    (hdata : ∀ x ∈ data, 0 ≤ x) :
    ∀ y ∈ trendAnalysisPrediction data days noise, 0 ≤ y := by
  intro y hy
  unfold trendAnalysisPrediction at hy
  split at hy
  · exact linearPrediction_nonneg data days hdata y hy
  · simp only [List.mem_map, List.mem_range] at hy
    obtain ⟨k, _, rfl⟩ := hy
    exact le_max_left 0 _

theorem seasonalPrediction_nonneg (data : List ℚ) (days : ℕ)
    (hdata : ∀ x ∈ data, 0 ≤ x) :
    ∀ y ∈ seasonalPrediction data days, 0 ≤ y := by
  intro y hy
  unfold seasonalPrediction at hy
  split at hy
  · exact linearPrediction_nonneg data days hdata y hy
  · simp only [List.mem_map, List.mem_range] at hy
    obtain ⟨k, _, rfl⟩ := hy
    exact le_max_left 0 _

theorem combinePredictions_three_getD (l r s : List ℚ) (hl : l ≠ []) (hr : r ≠ []) (hs : s ≠ [])
    (i : ℕ) (hil : i < l.length) (hir : i < r.length) (his : i < s.length) :
    (combinePredictions [l, r, s]).getD i 0 =
      0.4 * l.getD i 0 + 0.3 * r.getD i 0 + 0.3 * s.getD i 0 := by
  unfold combinePredictions
  simp only [List.filter_cons, List.isEmpty_eq_false.mpr hl, List.isEmpty_eq_false.mpr hr,
    List.isEmpty_eq_false.mpr hs, Bool.not_false, if_pos, List.filter_nil]
  rw [List.getD_eq_getElem?_getD, List.getElem?_map, List.getElem?_range hil]
  simp only [Option.map_some', Option.getD_some, List.enum, List.enumFrom,
    List.filter_cons, List.filter_nil, decide_eq_true_eq]
  split_ifs with h1
  · simp only [List.map_cons, List.map_nil, List.sum_cons, List.sum_nil, ensembleWeights,
      List.getD, List.get?_cons_zero, List.get?_cons_succ, Option.getD_some]
    rw [div_eq_iff (by norm_num : ((0.4 : ℚ) + (0.3 + (0.3 + 0))) ≠ 0)]
    ring
  · exfalso
    apply h1
    simp only [List.map_cons, List.map_nil, List.sum_cons, List.sum_nil, ensembleWeights,
      List.getD, List.get?_cons_zero, List.get?_cons_succ, Option.getD_some]
    norm_num

theorem combinePredictions_missing_first_length (r s : List ℚ) (hr : r ≠ []) :
    (combinePredictions [[], r, s]).length = r.length := by
  unfold combinePredictions
  simp only [List.filter_cons, List.isEmpty_nil, Bool.not_true, List.isEmpty_eq_false.mpr hr,
    Bool.not_false, if_pos, List.filter_nil, Bool.false_eq_true, if_false]
  simp

theorem combinePredictions_missing_first_getD (r s : List ℚ) (hr : r ≠ []) (hs : s ≠ [])
    (i : ℕ) (hir : i < r.length) (his : i < s.length) :
    (combinePredictions [[], r, s]).getD i 0 =
      (0.4 * r.getD i 0 + 0.3 * s.getD i 0) / 0.7 := by
  unfold combinePredictions
  simp only [List.filter_cons, List.isEmpty_nil, Bool.not_true, List.isEmpty_eq_false.mpr hr,
    List.isEmpty_eq_false.mpr hs, Bool.not_false, if_pos, List.filter_nil,
    Bool.false_eq_true, if_false]
  rw [List.getD_eq_getElem?_getD, List.getElem?_map, List.getElem?_range hir]
  simp only [Option.map_some', Option.getD_some, List.enum, List.enumFrom,
    List.filter_cons, List.filter_nil, decide_eq_true_eq]
  split_ifs with h1
  · simp only [List.map_cons, List.map_nil, List.sum_cons, List.sum_nil, ensembleWeights,
      List.getD, List.get?_cons_zero, List.get?_cons_succ, Option.getD_some]
    rw [div_eq_div_iff (by norm_num : ((0.4 : ℚ) + (0.3 + 0)) ≠ 0)
      (by norm_num : ((0.7 : ℚ)) ≠ 0)]
    ring
  · exfalso
    apply h1
    simp only [List.map_cons, List.map_nil, List.sum_cons, List.sum_nil, ensembleWeights,
      List.getD, List.get?_cons_zero, List.get?_cons_succ, Option.getD_some]
    norm_num

theorem getD_nonneg (l : List ℚ) (h : ∀ x ∈ l, 0 ≤ x) (i : ℕ) : 0 ≤ l.getD i 0 := by
  by_cases hi : i < l.length
  · rw [List.getD_eq_getElem?_getD, List.getElem?_eq_getElem hi]
    exact h _ (List.getElem_mem hi)
  · rw [List.getD_eq_getElem?_getD, List.getElem?_eq_none (le_of_not_lt hi)]
    exact le_refl 0

theorem filter_decide_map_eq_filterMap {α β : Type} (p : α → Prop) [DecidablePred p]
    (f : α → β) (l : List α) :
    (l.filter (fun a => decide (p a))).map f =
      l.filterMap (fun a => if p a then some (f a) else none) := by
  induction l with
  | nil => rfl
  | cons a t ih =>
    by_cases h : p a <;> simp [List.filter_cons, List.filterMap_cons, h, ih]

theorem predictActivityCore_none_of_short (counts : List ℚ) (days : ℕ) (noise : ℕ → ℚ)
    (h : counts.length < 7) : predictActivityCore counts days noise = none := by
  unfold predictActivityCore
  by_cases hc : counts.isEmpty
  · rw [if_pos hc]
  · rw [if_neg hc, if_pos h]

theorem predictMemberGrowthCore_none_of_short (userCounts : List ℚ) (days : ℕ)
    (h : userCounts.length < 7) : predictMemberGrowthCore userCounts days = none := by
  unfold predictMemberGrowthCore
  rw [if_pos h]

theorem predictTopicTrendsCore_none_of_short (topicCounts : List ℚ) (days : ℕ)
    (h : topicCounts.length < 7) : predictTopicTrendsCore topicCounts days = none := by
  unfold predictTopicTrendsCore
  rw [if_pos h]

/-- C1: for every group, target and horizon, a horizon outside `[1, 30]`
(including 0, 31 and negatives), an unsupported target, or a fetched
historical series of fewer than 7 points each make `predict` return `none`;
the embedding is total, so no exception reaches the caller and no partial
forecast is produced. -/
theorem spec_C1_refusal (activityData membersData topicsData : List (String × ℚ))
    (noise : ℕ → ℚ) (target : String) (days : ℤ)
    (h : days ≤ 0 ∨ 30 < days
       ∨ (target ≠ "activity" ∧ target ≠ "members" ∧ target ≠ "topics")
       ∨ (target = "activity" ∧ activityData.length < 7)
       ∨ (target = "members" ∧ membersData.length < 7)
       ∨ (target = "topics" ∧ topicsData.length < 7)) :
    predict activityData membersData topicsData noise target days = none := by
  unfold predict
  by_cases hd : days ≤ 0 ∨ 30 < days
  · rw [if_pos hd]
  · rw [if_neg hd]
    rcases h with h | h | ⟨h1, h2, h3⟩ | ⟨ht, hlen⟩ | ⟨ht, hlen⟩ | ⟨ht, hlen⟩
    · exact absurd (Or.inl h) hd
    · exact absurd (Or.inr h) hd
    · rw [if_neg h1, if_neg h2, if_neg h3]
    · rw [ht, if_pos rfl]
      exact predictActivityCore_none_of_short _ _ _ (by rw [List.length_map]; exact hlen)
    · rw [ht, if_neg (by decide), if_pos rfl]
      exact predictMemberGrowthCore_none_of_short _ _ (by rw [List.length_map]; exact hlen)
    · rw [ht, if_neg (by decide), if_neg (by decide), if_pos rfl]
      exact predictTopicTrendsCore_none_of_short _ _ (by rw [List.length_map]; exact hlen)

/-- Witness for C1: a horizon of 0 days is refused. -/
theorem spec_C1_refusal_witness :
    predict [] [] [] (fun _ => 0) "activity" 0 = none :=
  spec_C1_refusal [] [] [] (fun _ => 0) "activity" 0 (Or.inl (by norm_num))

/-- C4: on three non-empty predictor outputs of equal length `h`, the
ensemble combiner returns a sequence of length `h` whose `i`-th value is
exactly `0.4 * linear[i] + 0.3 * recent[i] + 0.3 * seasonal[i]`. -/
theorem spec_C4_ensemble_weights (l r s : List ℚ) (h i : ℕ)
    (hl : l.length = h) (hr : r.length = h) (hs : s.length = h) (hi : i < h) :
    (combinePredictions [l, r, s]).length = h ∧
    (combinePredictions [l, r, s]).getD i 0 =
      0.4 * l.getD i 0 + 0.3 * r.getD i 0 + 0.3 * s.getD i 0 := by
  have hl0 : l ≠ [] := by intro e; rw [e] at hl; simp at hl; omega
  have hr0 : r ≠ [] := by intro e; rw [e] at hr; simp at hr; omega
  have hs0 : s ≠ [] := by intro e; rw [e] at hs; simp at hs; omega
  constructor
  · rw [combinePredictions_cons_length l [r, s] hl0, hl]
  · exact combinePredictions_three_getD l r s hl0 hr0 hs0 i
      (by rw [hl]; exact hi) (by rw [hr]; exact hi) (by rw [hs]; exact hi)

/-- Witness for C4 at the one-day outputs `[1]`, `[2]`, `[3]`. -/
theorem spec_C4_ensemble_weights_witness :
    (combinePredictions [[(1:ℚ)], [2], [3]]).length = 1 ∧
    (combinePredictions [[(1:ℚ)], [2], [3]]).getD 0 0 =
      0.4 * ([(1:ℚ)].getD 0 0) + 0.3 * ([(2:ℚ)].getD 0 0) + 0.3 * ([(3:ℚ)].getD 0 0) :=
  spec_C4_ensemble_weights [1] [2] [3] 1 0 rfl rfl rfl (by norm_num)

/-- Counterexample to C8 as stated: with the linear sequence missing, the
remaining recent-trend and seasonal sequences do NOT keep their own
designated weights (0.3 and 0.3, renormalised to one half each, which would
give 5 here): the code reassigns the weight list positionally, so the
recent-trend sequence receives the linear weight 0.4 and the result is
`40/7 ≈ 5.71`. -/
theorem spec_C8_counterexample :
    combinePredictions [[], [10], [0]] = [40 / 7] ∧
    ((40 : ℚ) / 7) ≠ (0.3 * 10 + 0.3 * 0) / (0.3 + 0.3) := by
  constructor
  · norm_num [combinePredictions, ensembleWeights, List.enum, List.enumFrom,
      List.range_succ, List.filter]
  · norm_num

theorem combinePredictions_present_getD (l t s : List ℚ)
    (hl : l ≠ []) (ht : t ≠ []) (hs : s ≠ []) (i : ℕ) (hil : i < l.length) :
    (combinePredictions [l, t, s]).getD i 0 =
      (0.4 * l.getD i 0 + ((if i < t.length then 0.3 * t.getD i 0 else 0) +
        (if i < s.length then 0.3 * s.getD i 0 else 0))) /
      (0.4 + ((if i < t.length then (0.3 : ℚ) else 0) +
        (if i < s.length then (0.3 : ℚ) else 0))) := by
  unfold combinePredictions
  simp only [List.filter_cons, List.isEmpty_eq_false.mpr hl, List.isEmpty_eq_false.mpr ht,
    List.isEmpty_eq_false.mpr hs, Bool.not_false, if_pos, List.filter_nil]
  rw [List.getD_eq_getElem?_getD, List.getElem?_map, List.getElem?_range hil]
  simp only [Option.map_some', Option.getD_some, List.enum, List.enumFrom,
    List.filter_cons, List.filter_nil, decide_eq_true_eq]
  by_cases ht2 : i < t.length
  · by_cases hs2 : i < s.length
    · split_ifs with h1
      · simp only [List.map_cons, List.map_nil, List.sum_cons, List.sum_nil, ensembleWeights,
          List.getD, List.get?_cons_zero, List.get?_cons_succ, Option.getD_some]
        ring
      · exfalso
        apply h1
        simp only [List.map_cons, List.map_nil, List.sum_cons, List.sum_nil, ensembleWeights,
          List.getD, List.get?_cons_zero, List.get?_cons_succ, Option.getD_some]
        norm_num
    · split_ifs with h1
      · simp only [List.map_cons, List.map_nil, List.sum_cons, List.sum_nil, ensembleWeights,
          List.getD, List.get?_cons_zero, List.get?_cons_succ, Option.getD_some]
        ring
      · exfalso
        apply h1
        simp only [List.map_cons, List.map_nil, List.sum_cons, List.sum_nil, ensembleWeights,
          List.getD, List.get?_cons_zero, List.get?_cons_succ, Option.getD_some]
        norm_num
  · by_cases hs2 : i < s.length
    · split_ifs with h1
      · simp only [List.map_cons, List.map_nil, List.sum_cons, List.sum_nil, ensembleWeights,
          List.getD, List.get?_cons_zero, List.get?_cons_succ, Option.getD_some]
        ring
      · exfalso
        apply h1
        simp only [List.map_cons, List.map_nil, List.sum_cons, List.sum_nil, ensembleWeights,
          List.getD, List.get?_cons_zero, List.get?_cons_succ, Option.getD_some]
        norm_num
    · split_ifs with h1
      · simp only [List.map_cons, List.map_nil, List.sum_cons, List.sum_nil, ensembleWeights,
          List.getD, List.get?_cons_zero, List.get?_cons_succ, Option.getD_some]
        ring
      · exfalso
        apply h1
        simp only [List.map_cons, List.map_nil, List.sum_cons, List.sum_nil, ensembleWeights,
          List.getD, List.get?_cons_zero, List.get?_cons_succ, Option.getD_some]
        norm_num

theorem combinePredictions_missing_linear_getD (t s : List ℚ)
    (ht : t ≠ []) (hs : s ≠ []) (i : ℕ) (hit : i < t.length) :
    (combinePredictions [[], t, s]).getD i 0 =
      (0.4 * t.getD i 0 + (if i < s.length then 0.3 * s.getD i 0 else 0)) /
      (0.4 + (if i < s.length then (0.3 : ℚ) else 0)) := by
  unfold combinePredictions
  simp only [List.filter_cons, List.isEmpty_nil, Bool.not_true, Bool.false_eq_true, if_false,
    List.isEmpty_eq_false.mpr ht, List.isEmpty_eq_false.mpr hs, Bool.not_false, if_pos,
    List.filter_nil]
  rw [List.getD_eq_getElem?_getD, List.getElem?_map, List.getElem?_range hit]
  simp only [Option.map_some', Option.getD_some, List.enum, List.enumFrom,
    List.filter_cons, List.filter_nil, decide_eq_true_eq]
  by_cases hs2 : i < s.length
  · split_ifs with h1
    · simp only [List.map_cons, List.map_nil, List.sum_cons, List.sum_nil, ensembleWeights,
        List.getD, List.get?_cons_zero, List.get?_cons_succ, Option.getD_some]
      ring
    · exfalso
      apply h1
      simp only [List.map_cons, List.map_nil, List.sum_cons, List.sum_nil, ensembleWeights,
        List.getD, List.get?_cons_zero, List.get?_cons_succ, Option.getD_some]
      norm_num
  · split_ifs with h1
    · simp only [List.map_cons, List.map_nil, List.sum_cons, List.sum_nil, ensembleWeights,
        List.getD, List.get?_cons_zero, List.get?_cons_succ, Option.getD_some]
      ring
    · exfalso
      apply h1
      simp only [List.map_cons, List.map_nil, List.sum_cons, List.sum_nil, ensembleWeights,
        List.getD, List.get?_cons_zero, List.get?_cons_succ, Option.getD_some]
      norm_num

theorem combinePredictions_missing_trend_getD (l s : List ℚ)
    (hl : l ≠ []) (hs : s ≠ []) (i : ℕ) (hil : i < l.length) :
    (combinePredictions [l, [], s]).getD i 0 =
      (0.4 * l.getD i 0 + (if i < s.length then 0.3 * s.getD i 0 else 0)) /
      (0.4 + (if i < s.length then (0.3 : ℚ) else 0)) := by
  unfold combinePredictions
  simp only [List.filter_cons, List.isEmpty_nil, Bool.not_true, Bool.false_eq_true, if_false,
    List.isEmpty_eq_false.mpr hl, List.isEmpty_eq_false.mpr hs, Bool.not_false, if_pos,
    List.filter_nil]
  rw [List.getD_eq_getElem?_getD, List.getElem?_map, List.getElem?_range hil]
  simp only [Option.map_some', Option.getD_some, List.enum, List.enumFrom,
    List.filter_cons, List.filter_nil, decide_eq_true_eq]
  by_cases hs2 : i < s.length
  · split_ifs with h1
    · simp only [List.map_cons, List.map_nil, List.sum_cons, List.sum_nil, ensembleWeights,
        List.getD, List.get?_cons_zero, List.get?_cons_succ, Option.getD_some]
      ring
    · exfalso
      apply h1
      simp only [List.map_cons, List.map_nil, List.sum_cons, List.sum_nil, ensembleWeights,
        List.getD, List.get?_cons_zero, List.get?_cons_succ, Option.getD_some]
      norm_num
  · split_ifs with h1
    · simp only [List.map_cons, List.map_nil, List.sum_cons, List.sum_nil, ensembleWeights,
        List.getD, List.get?_cons_zero, List.get?_cons_succ, Option.getD_some]
      ring
    · exfalso
      apply h1
      simp only [List.map_cons, List.map_nil, List.sum_cons, List.sum_nil, ensembleWeights,
        List.getD, List.get?_cons_zero, List.get?_cons_succ, Option.getD_some]
      norm_num

theorem combinePredictions_missing_seasonal_getD (l t : List ℚ)
    (hl : l ≠ []) (ht : t ≠ []) (i : ℕ) (hil : i < l.length) :
    (combinePredictions [l, t, []]).getD i 0 =
      (0.4 * l.getD i 0 + (if i < t.length then 0.3 * t.getD i 0 else 0)) /
      (0.4 + (if i < t.length then (0.3 : ℚ) else 0)) := by
  unfold combinePredictions
  simp only [List.filter_cons, List.isEmpty_nil, Bool.not_true, Bool.false_eq_true, if_false,
    List.isEmpty_eq_false.mpr hl, List.isEmpty_eq_false.mpr ht, Bool.not_false, if_pos,
    List.filter_nil]
  rw [List.getD_eq_getElem?_getD, List.getElem?_map, List.getElem?_range hil]
  simp only [Option.map_some', Option.getD_some, List.enum, List.enumFrom,
    List.filter_cons, List.filter_nil, decide_eq_true_eq]
  by_cases ht2 : i < t.length
  · split_ifs with h1
    · simp only [List.map_cons, List.map_nil, List.sum_cons, List.sum_nil, ensembleWeights,
        List.getD, List.get?_cons_zero, List.get?_cons_succ, Option.getD_some]
      ring
    · exfalso
      apply h1
      simp only [List.map_cons, List.map_nil, List.sum_cons, List.sum_nil, ensembleWeights,
        List.getD, List.get?_cons_zero, List.get?_cons_succ, Option.getD_some]
      norm_num
  · split_ifs with h1
    · simp only [List.map_cons, List.map_nil, List.sum_cons, List.sum_nil, ensembleWeights,
        List.getD, List.get?_cons_zero, List.get?_cons_succ, Option.getD_some]
      ring
    · exfalso
      apply h1
      simp only [List.map_cons, List.map_nil, List.sum_cons, List.sum_nil, ensembleWeights,
        List.getD, List.get?_cons_zero, List.get?_cons_succ, Option.getD_some]
      norm_num

/-- C8 as amended: the combiner drops empty sequences and reassigns the
fixed weights `0.4, 0.3, 0.3` BY POSITION among the remaining sequences in
order (with the linear forecast missing, the recent-trend forecast receives
0.4 and the seasonal one 0.3) — not each predictor's own designated weight;
at each output index only the remaining sequences long enough to reach that
index contribute, the positional weights of those present being
renormalised; and the combined output has the length of the first remaining
non-empty sequence, which equals `h` only when that sequence has length
`h`. -/
theorem spec_C8_combine_amended (l t s : List ℚ) (i : ℕ) :
    (l ≠ [] → (combinePredictions [l, t, s]).length = l.length ∧
      (combinePredictions [l, [], s]).length = l.length ∧
      (combinePredictions [l, t, []]).length = l.length) ∧
    (t ≠ [] → (combinePredictions [[], t, s]).length = t.length) ∧
    (l ≠ [] → t ≠ [] → s ≠ [] → i < l.length →
      (combinePredictions [l, t, s]).getD i 0 =
        (0.4 * l.getD i 0 + ((if i < t.length then 0.3 * t.getD i 0 else 0) +
          (if i < s.length then 0.3 * s.getD i 0 else 0))) /
        (0.4 + ((if i < t.length then (0.3 : ℚ) else 0) +
          (if i < s.length then (0.3 : ℚ) else 0)))) ∧
    (t ≠ [] → s ≠ [] → i < t.length →
      (combinePredictions [[], t, s]).getD i 0 =
        (0.4 * t.getD i 0 + (if i < s.length then 0.3 * s.getD i 0 else 0)) /
        (0.4 + (if i < s.length then (0.3 : ℚ) else 0))) ∧
    (l ≠ [] → s ≠ [] → i < l.length →
      (combinePredictions [l, [], s]).getD i 0 =
        (0.4 * l.getD i 0 + (if i < s.length then 0.3 * s.getD i 0 else 0)) /
        (0.4 + (if i < s.length then (0.3 : ℚ) else 0))) ∧
    (l ≠ [] → t ≠ [] → i < l.length →
      (combinePredictions [l, t, []]).getD i 0 =
        (0.4 * l.getD i 0 + (if i < t.length then 0.3 * t.getD i 0 else 0)) /
        (0.4 + (if i < t.length then (0.3 : ℚ) else 0))) := by
  refine ⟨fun hl => ⟨combinePredictions_cons_length l [t, s] hl,
      combinePredictions_cons_length l [[], s] hl,
      combinePredictions_cons_length l [t, []] hl⟩,
    fun ht => combinePredictions_missing_first_length t s ht,
    fun hl ht hs hil => combinePredictions_present_getD l t s hl ht hs i hil,
    fun ht hs hit => combinePredictions_missing_linear_getD t s ht hs i hit,
    fun hl hs hil => combinePredictions_missing_trend_getD l s hl hs i hil,
    fun hl ht hil => combinePredictions_missing_seasonal_getD l t hl ht i hil⟩

/-- Witness for the amended C8 at concrete inputs; the index-1 clause
exercises the renormalisation past the end of the shorter sequence `[7]`. -/
theorem spec_C8_combine_amended_witness :
    (combinePredictions [[(5:ℚ), 6], [7], [8, 9]]).length = [(5:ℚ), 6].length ∧
    (combinePredictions [[], [(7:ℚ)], [8, 9]]).length = [(7:ℚ)].length ∧
    ((combinePredictions [[(5:ℚ), 6], [7], [8, 9]]).getD 1 0 =
      (0.4 * [(5:ℚ), 6].getD 1 0 + ((if 1 < [(7:ℚ)].length then 0.3 * [(7:ℚ)].getD 1 0 else 0) +
        (if 1 < [(8:ℚ), 9].length then 0.3 * [(8:ℚ), 9].getD 1 0 else 0))) /
      (0.4 + ((if 1 < [(7:ℚ)].length then (0.3 : ℚ) else 0) +
        (if 1 < [(8:ℚ), 9].length then (0.3 : ℚ) else 0)))) ∧
    ((combinePredictions [[], [(7:ℚ)], [8, 9]]).getD 0 0 =
      (0.4 * [(7:ℚ)].getD 0 0 + (if 0 < [(8:ℚ), 9].length then 0.3 * [(8:ℚ), 9].getD 0 0 else 0)) /
      (0.4 + (if 0 < [(8:ℚ), 9].length then (0.3 : ℚ) else 0))) ∧
    ((combinePredictions [[(5:ℚ), 6], [], [8, 9]]).getD 0 0 =
      (0.4 * [(5:ℚ), 6].getD 0 0 + (if 0 < [(8:ℚ), 9].length then 0.3 * [(8:ℚ), 9].getD 0 0 else 0)) /
      (0.4 + (if 0 < [(8:ℚ), 9].length then (0.3 : ℚ) else 0))) ∧
    ((combinePredictions [[(5:ℚ), 6], [7], []]).getD 0 0 =
      (0.4 * [(5:ℚ), 6].getD 0 0 + (if 0 < [(7:ℚ)].length then 0.3 * [(7:ℚ)].getD 0 0 else 0)) /
      (0.4 + (if 0 < [(7:ℚ)].length then (0.3 : ℚ) else 0))) :=
  ⟨((spec_C8_combine_amended [5, 6] [7] [8, 9] 0).1 (by simp)).1,
   (spec_C8_combine_amended [5, 6] [7] [8, 9] 0).2.1 (by simp),
   (spec_C8_combine_amended [5, 6] [7] [8, 9] 1).2.2.1 (by simp) (by simp) (by simp)
     (by norm_num),
   (spec_C8_combine_amended [5, 6] [7] [8, 9] 0).2.2.2.1 (by simp) (by simp) (by norm_num),
   (spec_C8_combine_amended [5, 6] [7] [8, 9] 0).2.2.2.2.1 (by simp) (by simp) (by norm_num),
   (spec_C8_combine_amended [5, 6] [7] [8, 9] 0).2.2.2.2.2 (by simp) (by simp) (by norm_num)⟩

/-- Counterexample to C9 as stated: for the perfectly linear member series
`[47, …, 53]` with a one-day horizon the forecast is `[54]`, a predicted-vs-
recent rate of exactly `0.08`; the §4.7 classifier labels that `stable`
(`稳定`, rate within ±0.1), but the members target labels it rising
(`增长`) because it uses `change_percent > 5` instead. -/
theorem spec_C9_counterexample :
    (predictMemberGrowthCore [47, 48, 49, 50, 51, 52, 53] 1).map
        (fun r => r.trend_direction) = some "增长" ∧
    analyzeTrendDirection [47, 48, 49, 50, 51, 52, 53] [54] = "稳定" ∧
    "增长" ≠ "稳定" := by
  refine ⟨?_, ?_, by decide⟩
  · norm_num [predictMemberGrowthCore, linearPrediction, olsSlope, olsIntercept, xsOf,
      calculateConfidence, mean, List.range_succ]
  · norm_num [analyzeTrendDirection, mean]

/-- C9 as amended: whenever the members target returns a result, its trend
label is produced by `±5`-percent thresholds on `change_percent`
(`增长` / `下降` / `稳定`), not by the `±10`-percent rule that the activity
target's classifier uses. -/
theorem spec_C9_members_trend_amended (userCounts : List ℚ) (days : ℕ)
    (h7 : 7 ≤ userCounts.length) :
    ∀ r : PredictionResult, predictMemberGrowthCore userCounts days = some r →
      r.trend_direction =
        (if 5 < r.change_percent then "增长"
         else if r.change_percent < -5 then "下降" else "稳定") := by
  intro r hr
  unfold predictMemberGrowthCore at hr
  rw [if_neg (not_lt.mpr h7)] at hr
  simp only [Option.some.injEq] at hr
  rw [← hr]

/-- Witness for the amended C9 at the series `[47, …, 53]`. -/
theorem spec_C9_members_trend_amended_witness :
    (⟨[54], 0.5, "增长", 8⟩ : PredictionResult).trend_direction =
      (if 5 < (⟨[54], 0.5, "增长", 8⟩ : PredictionResult).change_percent then "增长"
       else if (⟨[54], 0.5, "增长", 8⟩ : PredictionResult).change_percent < -5 then "下降"
       else "稳定") :=
  spec_C9_members_trend_amended [47, 48, 49, 50, 51, 52, 53] 1 (by norm_num)
    ⟨[54], 0.5, "增长", 8⟩
    (by norm_num [predictMemberGrowthCore, linearPrediction, olsSlope, olsIntercept, xsOf,
      calculateConfidence, mean, List.range_succ])

/-- C10 (implicit): whenever the fetched history has strictly more points
than the horizon, every target's reported confidence is exactly `0.5`: the
"fitted" argument handed to the scorer is the future forecast truncated to
the history length, whose length then never matches, so the neutral default
is returned regardless of fit quality. -/
theorem spec_C10_confidence_default (counts : List ℚ) (days : ℕ) (noise : ℕ → ℚ)
    (h7 : 7 ≤ counts.length) (h1 : 1 ≤ days) (hlt : days < counts.length) :
    ((predictActivityCore counts days noise).map (fun r => r.confidence) = some 0.5) ∧
    ((predictMemberGrowthCore counts days).map (fun r => r.confidence) = some 0.5) ∧
    ((predictTopicTrendsCore counts days).map (fun r => r.confidence) = some 0.5) := by
  have hlin : (linearPrediction counts days).length = days := linearPrediction_length counts days
  have hlin0 : linearPrediction counts days ≠ [] := by
    intro e; rw [e] at hlin; simp at hlin; omega
  have hne : counts.isEmpty = false := List.isEmpty_eq_false.mpr (by
    intro e; rw [e] at h7; simp at h7)
  refine ⟨?_, ?_, ?_⟩
  · unfold predictActivityCore
    rw [if_neg (by rw [hne]; simp : ¬ (counts.isEmpty = true)), if_neg (not_lt.mpr h7)]
    simp only [Option.map_some', Option.some.injEq]
    have hcombLen : (combinePredictions [linearPrediction counts days,
        trendAnalysisPrediction counts days noise, seasonalPrediction counts days]).length
          = days := by
      rw [combinePredictions_cons_length _ _ hlin0, hlin]
    apply calculateConfidence_of_length_ne
    rw [List.length_take, hcombLen]
    omega
  · unfold predictMemberGrowthCore
    rw [if_neg (not_lt.mpr h7)]
    simp only [Option.map_some', Option.some.injEq]
    apply calculateConfidence_of_length_ne
    rw [List.length_take, hlin]
    omega
  · unfold predictTopicTrendsCore
    rw [if_neg (not_lt.mpr h7)]
    simp only [Option.map_some', Option.some.injEq]
    apply calculateConfidence_of_length_ne
    rw [List.length_take, seasonalPrediction_length]
    omega

/-- Witness for C10: an 8-point history with a 1-day horizon. -/
theorem spec_C10_confidence_default_witness :
    ((predictActivityCore [3, 1, 4, 1, 5, 9, 2, 6] 1 (fun _ => 0)).map
        (fun r => r.confidence) = some 0.5) ∧
    ((predictMemberGrowthCore [3, 1, 4, 1, 5, 9, 2, 6] 1).map
        (fun r => r.confidence) = some 0.5) ∧
    ((predictTopicTrendsCore [3, 1, 4, 1, 5, 9, 2, 6] 1).map
        (fun r => r.confidence) = some 0.5) :=
  spec_C10_confidence_default [3, 1, 4, 1, 5, 9, 2, 6] 1 (fun _ => 0)
    (by norm_num) (by norm_num) (by norm_num)

/-- Counterexample to C2 as stated: `_linear_prediction` on the singleton
series `[-1]` takes the fewer-than-two-points path, which copies the value
without the non-negativity clamp, so the output contains `-1 < 0`. -/
theorem spec_C2_counterexample :
    (linearPrediction [(-1 : ℚ)] 1).getD 0 0 = -1 ∧ ((-1 : ℚ) < 0) := by
  constructor
  · norm_num [linearPrediction]
  · norm_num

/-- C2 as amended: for every input series whose values are all non-negative
(which every daily-count series is), every value produced by the linear,
recent-trend (under any noise realisation) and seasonal predictors is ≥ 0,
and consequently so is every value of the ensemble combination.  (The
restriction to non-negative inputs is forced by the unclamped
single-point copy path of `_linear_prediction`.) -/
theorem spec_C2_nonneg_amended (data : List ℚ) (days : ℕ) (noise : ℕ → ℚ) (i : ℕ)
    (hdata : ∀ x ∈ data, 0 ≤ x) :
    0 ≤ (linearPrediction data days).getD i 0 ∧
    0 ≤ (trendAnalysisPrediction data days noise).getD i 0 ∧
    0 ≤ (seasonalPrediction data days).getD i 0 ∧
    0 ≤ (combinePredictions [linearPrediction data days,
          trendAnalysisPrediction data days noise,
          seasonalPrediction data days]).getD i 0 := by
  refine ⟨getD_nonneg _ (linearPrediction_nonneg data days hdata) i,
    getD_nonneg _ (trendAnalysisPrediction_nonneg data days noise hdata) i,
    getD_nonneg _ (seasonalPrediction_nonneg data days hdata) i,
    getD_nonneg _ (combinePredictions_nonneg _ ?_) i⟩
  intro pl hpl
  simp only [List.mem_cons, List.mem_singleton] at hpl
  rcases hpl with rfl | rfl | rfl | h
  · exact linearPrediction_nonneg data days hdata
  · exact trendAnalysisPrediction_nonneg data days noise hdata
  · exact seasonalPrediction_nonneg data days hdata
  · simp at h

/-- Witness for the amended C2 at the series `[1, 2]`, horizon 2, with a
negative noise realisation. -/
theorem spec_C2_nonneg_amended_witness :
    0 ≤ (linearPrediction [1, 2] 2).getD 0 0 ∧
    0 ≤ (trendAnalysisPrediction [1, 2] 2 (fun _ => -5)).getD 0 0 ∧
    0 ≤ (seasonalPrediction [1, 2] 2).getD 0 0 ∧
    0 ≤ (combinePredictions [linearPrediction [1, 2] 2,
          trendAnalysisPrediction [1, 2] 2 (fun _ => -5),
          seasonalPrediction [1, 2] 2]).getD 0 0 :=
  spec_C2_nonneg_amended [1, 2] 2 (fun _ => -5) 0 (by
    intro x hx
    simp only [List.mem_cons, List.mem_singleton] at hx
    rcases hx with rfl | rfl | h
    · norm_num
    · norm_num
    · simp at h)

/-- C3: the confidence scorer always returns a value in `[0, 1]` (also on
degenerate constant or all-zero series); it returns the neutral `0.5` when
the lengths mismatch or fewer than two points are given (instead of
raising, which totality of the definition reflects); and when the inputs
are well-formed and the history has positive variance it returns exactly
`clamp((R2 + (1 - MAPE)) / 2, 0, 1)` with `R2` the coefficient of
determination and `MAPE = mean(|y - f| / max(y, 1))`. -/
theorem spec_C3_confidence (y f : List ℚ) :
    (0 ≤ calculateConfidence y f ∧ calculateConfidence y f ≤ 1) ∧
    ((y.length ≠ f.length ∨ y.length < 2) → calculateConfidence y f = 0.5) ∧
    (y.length = f.length → 2 ≤ y.length →
      (y.map (fun v => (v - mean y) ^ 2)).sum ≠ 0 →
      calculateConfidence y f =
        max 0 (min 1 (((1 - ((y.zip f).map (fun p => (p.1 - p.2) ^ 2)).sum /
              (y.map (fun v => (v - mean y) ^ 2)).sum) +
            (1 - mean ((y.zip f).map (fun p => |p.1 - p.2| / max p.1 1)))) / 2))) := by
  refine ⟨?_, ?_, ?_⟩
  · unfold calculateConfidence
    split_ifs with h
    · norm_num
    · exact ⟨le_max_left 0 _, max_le (by norm_num) (min_le_left 1 _)⟩
  · intro h
    unfold calculateConfidence
    rw [if_pos h]
  · intro hlen h2 hden
    have hcond : ¬(y.length ≠ f.length ∨ y.length < 2) := by
      push_neg
      exact ⟨hlen, h2⟩
    have hr2 : r2Score y f =
        1 - ((y.zip f).map (fun p => (p.1 - p.2) ^ 2)).sum /
          (y.map (fun v => (v - mean y) ^ 2)).sum := by
      unfold r2Score
      by_cases hnum : ((y.zip f).map (fun p => (p.1 - p.2) ^ 2)).sum = 0
      · rw [if_pos hnum, hnum, zero_div, sub_zero]
      · rw [if_neg hnum, if_neg hden]
    unfold calculateConfidence
    rw [if_neg hcond, hr2]

/-- Witness for C3 at `y = [1, 2]`, `f = [1, 4]`. -/
theorem spec_C3_confidence_witness :
    calculateConfidence [1, 2] [1, 4] =
      max 0 (min 1 (((1 - (([(1:ℚ), 2].zip [1, 4]).map (fun p => (p.1 - p.2) ^ 2)).sum /
            ([(1:ℚ), 2].map (fun v => (v - mean [1, 2]) ^ 2)).sum) +
          (1 - mean (([(1:ℚ), 2].zip [1, 4]).map (fun p => |p.1 - p.2| / max p.1 1)))) / 2)) :=
  (spec_C3_confidence [1, 2] [1, 4]).2.2 rfl (by norm_num) (by norm_num [mean])

/-- C6 (code bug): the seasonal predictor's trend factor is NOT guarded
against a zero `mean(data[:7])`.  On the 14-point series whose first week
is all zeros and whose second week is all ones, the float computation the
source performs is `1 + (1 - 0) / 0 = +inf` (numpy float division by zero
does not raise), and the one-day forecast it returns is `[inf]` — not the
finite `[0.5]` that the claimed guard (`factor = 1`) would give. -/
theorem spec_C6_seasonal_divzero :
    seasonalPredictionFloat [0, 0, 0, 0, 0, 0, 0, 1, 1, 1, 1, 1, 1, 1] 1 =
      [PyFloat.posInf] ∧
    (∀ q : ℚ, PyFloat.posInf ≠ PyFloat.finite q) := by
  constructor
  · norm_num [seasonalPredictionFloat, weekValues, mean, pyAdd, pyDiv, pyMul, pyMax0,
      List.range_succ]
  · intro q h
    exact PyFloat.noConfusion h

/-- C7 (code bug): the confidence reported by the service is never an
in-sample retrospective fit.  On the perfectly linear members series
`[1, …, 8]` with a one-day horizon the code passes `predictions[:8] = [9]`
(the truncated FUTURE forecast) to the scorer, whose length mismatch yields
the neutral `0.5`; re-running the linear predictor in-sample over the
history, as the claim prescribes, fits the series exactly and would yield
confidence `1`. -/
theorem spec_C7_confidence_not_insample :
    ((predictMemberGrowthCore [1, 2, 3, 4, 5, 6, 7, 8] 1).map (fun r => r.confidence)
        = some 0.5) ∧
    calculateConfidence [1, 2, 3, 4, 5, 6, 7, 8]
        (linearInSampleFit [1, 2, 3, 4, 5, 6, 7, 8]) = 1 ∧
    (0.5 : ℚ) ≠ 1 := by
  refine ⟨?_, ?_, by norm_num⟩
  · norm_num [predictMemberGrowthCore, linearPrediction, olsSlope, olsIntercept, xsOf,
      calculateConfidence, mean, List.range_succ]
  · norm_num [linearInSampleFit, olsSlope, olsIntercept, xsOf, calculateConfidence,
      r2Score, mean, List.range_succ]

/-- C5: on every non-empty daily series the anomaly detector returns a
report (no refusal for small series) whose fields are the series mean, the
standard deviation `sqrt(mean((x - mean)^2))`, the threshold `2 * std`, and
— in series order — exactly the days with `|value - mean| > 2 * std`, each
recorded with `deviation = |value - mean|` and `kind = high` iff the value
exceeds the mean; the `anomalyExceeds` predicate used is definitionally
that comparison (second conjunct), and on the literal series
`[10, 10, 10, 10, 10, 10, 100]` exactly the 100-valued day is flagged, as
`high` (third conjunct). -/
theorem spec_C5_anomaly (dailyData : List (String × ℚ)) (hne : dailyData ≠ []) :
    (detectAnomalies dailyData = some
      ⟨(dailyData.filterMap (fun row =>
          if anomalyExceeds (mean (dailyData.map Prod.snd))
              (mean ((dailyData.map Prod.snd).map
                (fun c => (c - mean (dailyData.map Prod.snd)) ^ 2))) row.2 then
            some (⟨row.1, row.2, |row.2 - mean (dailyData.map Prod.snd)|,
              if mean (dailyData.map Prod.snd) < row.2 then "high" else "low"⟩ :
                AnomalyRecord)
          else none)).length,
        dailyData.filterMap (fun row =>
          if anomalyExceeds (mean (dailyData.map Prod.snd))
              (mean ((dailyData.map Prod.snd).map
                (fun c => (c - mean (dailyData.map Prod.snd)) ^ 2))) row.2 then
            some ⟨row.1, row.2, |row.2 - mean (dailyData.map Prod.snd)|,
              if mean (dailyData.map Prod.snd) < row.2 then "high" else "low"⟩
          else none),
        mean (dailyData.map Prod.snd),
        Real.sqrt ((mean ((dailyData.map Prod.snd).map
          (fun c => (c - mean (dailyData.map Prod.snd)) ^ 2)) : ℚ) : ℝ),
        2 * Real.sqrt ((mean ((dailyData.map Prod.snd).map
          (fun c => (c - mean (dailyData.map Prod.snd)) ^ 2)) : ℚ) : ℝ)⟩) ∧
    (∀ m w v : ℚ, anomalyExceeds m w v ↔
      2 * Real.sqrt (w : ℝ) < |((v : ℝ) - (m : ℝ))|) ∧
    anomaliesOf [("day1", 10), ("day2", 10), ("day3", 10), ("day4", 10), ("day5", 10),
      ("day6", 10), ("day7", 100)] =
      ([⟨"day7", 100, 540 / 7, "high"⟩] : List AnomalyRecord) := by
  refine ⟨?_, fun m w v => Iff.rfl, ?_⟩
  · have hanom : anomaliesOf dailyData = dailyData.filterMap (fun row =>
        if anomalyExceeds (mean (dailyData.map Prod.snd))
            (mean ((dailyData.map Prod.snd).map
              (fun c => (c - mean (dailyData.map Prod.snd)) ^ 2))) row.2 then
          some ⟨row.1, row.2, |row.2 - mean (dailyData.map Prod.snd)|,
            if mean (dailyData.map Prod.snd) < row.2 then "high" else "low"⟩
        else none) := by
      unfold anomaliesOf
      exact filter_decide_map_eq_filterMap _ _ dailyData
    unfold detectAnomalies
    rw [if_neg (by simp [List.isEmpty_eq_false.mpr hne]), hanom]
  · have hpos : anomalyExceeds (160/7) (48600/49) 100 := by
      rw [← anomalyExceedsIff]
      norm_num
    have hneg : ¬ anomalyExceeds (160/7) (48600/49) 10 := by
      rw [← anomalyExceedsIff]
      norm_num
    norm_num [anomaliesOf, mean, List.filter, hpos, hneg]

/-- Witness for C5: the literal series of spec property 8, where exactly the
100-valued day is reported as a high anomaly with deviation `540/7`. -/
theorem spec_C5_anomaly_witness :
    anomaliesOf [("day1", 10), ("day2", 10), ("day3", 10), ("day4", 10), ("day5", 10),
      ("day6", 10), ("day7", 100)] =
      ([⟨"day7", 100, 540 / 7, "high"⟩] : List AnomalyRecord) :=
  (spec_C5_anomaly [("day1", 10), ("day2", 10), ("day3", 10), ("day4", 10), ("day5", 10),
    ("day6", 10), ("day7", 100)] (by simp)).2.2
